import Mathlib

/-!
UdfpsHandler (garnet): a shallow embedding of `udfps/UdfpsHandler.cpp`.

The handler talks to three collaborators: the fingerprint module (through
`mDevice->extCmd`), the touch driver and the display-feature driver (through
`ioctl`).  Every function of the source is embedded as a pure function that
returns the commands it issues, in order, next to the new handler state.
System calls whose result the code inspects (`poll`, `lseek`, `read`) are
represented by the values they return.

Target: 64-bit Android (LP64): `int` is 32 bits, `size_t` and `ssize_t` are
64 bits.
-/

namespace UdfpsHandler

/-! ## Constants defined in the source file -/

def COMMAND_NIT : Int := 10
def PARAM_NIT_FOD : Int := 1
def PARAM_NIT_NONE : Int := 0

def COMMAND_FOD_PRESS_STATUS : Int := 1
def COMMAND_FOD_PRESS_X : Int := 2
def COMMAND_FOD_PRESS_Y : Int := 3
def PARAM_FOD_PRESSED : Int := 1
def PARAM_FOD_RELEASED : Int := 0

def FOD_STATUS_OFF : Int := 0
def FOD_STATUS_ON : Int := 1

/-- Constants and sizes that the source takes from headers which are not part
of the source tree (`mi_disp.h`, `xiaomi_touch.h`, `fingerprint.h`).  They are
parameters of the model: every function below is defined for an arbitrary
choice of them. -/
structure Headers where
  /-- Display id of the primary panel (`mi_disp.h`). -/
  MI_DISP_PRIMARY : Int
  /-- Event type of fingerprint-on-display events (`mi_disp.h`). -/
  MI_DISP_EVENT_FOD : Nat
  /-- Mask of the "local HBM UI ready" flag in the first payload byte (`mi_disp.h`). -/
  LOCAL_HBM_UI_READY : Nat
  /-- Local HBM target "white, 1000 nit" (`mi_disp.h`). -/
  LHBM_TARGET_BRIGHTNESS_WHITE_1000NIT : Int
  /-- Local HBM target "off, finger up" (`mi_disp.h`). -/
  LHBM_TARGET_BRIGHTNESS_OFF_FINGER_UP : Int
  /-- Touch mode selecting the FOD feature (`xiaomi_touch.h`). -/
  Touch_Fod_Enable : Int
  /-- Number of `int`s of a touch command buffer (`xiaomi_touch.h`); the
  three-element initialiser of the source needs it to be at least 3. -/
  MAX_BUF_SIZE : Nat
  /-- Acquisition result "good" (`fingerprint.h`). -/
  FINGERPRINT_ACQUIRED_GOOD : Int
  /-- The value of `sizeof(disp_event)` (`mi_disp.h`). -/
  sizeof_disp_event : Nat
deriving DecidableEq, Repr

/-- One instantiation of the header constants, used to evaluate the model on
concrete inputs.  The flag mask is bit 0 and the event header is 12 bytes. -/
def sampleHeaders : Headers where
  MI_DISP_PRIMARY := 0
  MI_DISP_EVENT_FOD := 2
  LOCAL_HBM_UI_READY := 1
  LHBM_TARGET_BRIGHTNESS_WHITE_1000NIT := 1
  LHBM_TARGET_BRIGHTNESS_OFF_FINGER_UP := 4
  Touch_Fod_Enable := 10
  MAX_BUF_SIZE := 3
  FINGERPRINT_ACQUIRED_GOOD := 0
  sizeof_disp_event := 12

/-! ## Commands issued to the collaborators -/

/-- The `ioctl` request codes used by the source. -/
inductive IoctlRequest where
  | TOUCH_IOC_SET_CUR_VALUE
  | MI_DISP_IOCTL_SET_LOCAL_HBM
  | MI_DISP_IOCTL_REGISTER_EVENT
deriving DecidableEq, Repr

/-- The `disp_local_hbm_req` record, with `base.flag` and `base.disp_id` flattened. -/
structure disp_local_hbm_req where
  flag : Int
  disp_id : Int
  local_hbm_value : Int
deriving DecidableEq, Repr

/-- The `disp_event_req` record, with `base.flag` and `base.disp_id` flattened. -/
structure disp_event_req where
  flag : Int
  disp_id : Int
  type : Nat
deriving DecidableEq, Repr

/-- A call made by the handler to one of its collaborators.  The first
argument of each `ioctl` is the descriptor value passed to the system call. -/
inductive Command where
  /-- The call `mDevice->extCmd(mDevice, cmd, param)`, with the values the
  callee receives.  The prototype is in `fingerprint.h`, which is not part of
  the source tree: `int (*extCmd)(struct fingerprint_device*, int32_t cmd,
  int32_t param)`, so an unsigned argument is converted to `int32_t`. -/
  | extCmd (cmd : Int) (param : Int)
  /-- The call `ioctl(fd, request, &buf)` with an `int buf[MAX_BUF_SIZE]`. -/
  | ioctlBuf (fd : Int) (request : IoctlRequest) (buf : List Int)
  /-- The call `ioctl(fd, request, &req)` with a `disp_local_hbm_req`. -/
  | ioctlLocalHbm (fd : Int) (request : IoctlRequest) (req : disp_local_hbm_req)
  /-- The call `ioctl(fd, request, &req)` with a `disp_event_req`. -/
  | ioctlEventReq (fd : Int) (request : IoctlRequest) (req : disp_event_req)
deriving DecidableEq, Repr

/-- Whether a command is an `ioctl` on the touch request `TOUCH_IOC_SET_CUR_VALUE`. -/
def Command.isTouchIoctl : Command → Bool
  | .ioctlBuf _ .TOUCH_IOC_SET_CUR_VALUE _ => true
  | _ => false

/-- Whether a command is an `ioctl` with request `MI_DISP_IOCTL_SET_LOCAL_HBM`. -/
def Command.isLocalHbmIoctl : Command → Bool
  | .ioctlLocalHbm _ .MI_DISP_IOCTL_SET_LOCAL_HBM _ => true
  | _ => false

/-- The contents of `int buf[MAX_BUF_SIZE] = {a, b, c}`: the three initialisers
followed by zeros (a C++ aggregate initialiser zero-fills the rest). -/
def touchBuf (K : Headers) (a b c : Int) : List Int :=
  [a, b, c] ++ List.replicate (K.MAX_BUF_SIZE - 3) 0

/-- Whether a command is the FOD-icon-off touch command: `SET_CUR_VALUE` with
`{MI_DISP_PRIMARY, Touch_Fod_Enable, FOD_STATUS_OFF}`, on any descriptor. -/
def Command.isFodIconOff (K : Headers) : Command → Bool
  | .ioctlBuf _ .TOUCH_IOC_SET_CUR_VALUE buf =>
      decide (buf = touchBuf K K.MI_DISP_PRIMARY K.Touch_Fod_Enable FOD_STATUS_OFF)
  | _ => false

/-! ## `readBool` -/

/-- What the sysfs descriptor answers during one `readBool`: the value stored
in `rc` by `rc = lseek(fd, 0, SEEK_SET)`, the value stored in `rc` by
`rc = read(fd, &c, sizeof(char))`, and the character found in `c` after the
read.  (`lseek` to offset 0 returns 0 or -1 and a one-byte `read` returns -1, 0
or 1, so the narrowing to `int` changes nothing.) -/
structure SysfsFd where
  lseekRc : Int
  readRc : Int
  c : Char
deriving DecidableEq, Repr

/-- The function `readBool(int fd)`. -/
def readBool (fd : SysfsFd) : Bool :=
  if fd.lseekRc ≠ 0 then
    false
  else if fd.readRc ≠ 1 then
    false
  else
    fd.c != '0'

/-! ## `parseDispEvent` -/

/-- Conversion of a signed value to `size_t` (64 bits, modular). -/
def toSizeT (i : Int) : Nat := (i % 18446744073709551616).toNat

/-- Conversion of a value to `uint32_t` (32 bits, modular). -/
def toUInt32 (n : Nat) : Nat := n % 4294967296

/-- Conversion of an unsigned value (`size_t`, `uint32_t`) to `int`, which is
`int32_t` (32 bits, two's complement). -/
def toInt32 (n : Nat) : Int :=
  if n % 4294967296 < 2147483648 then (n % 4294967296 : Nat) else (n % 4294967296 : Nat) - 4294967296

/-- The fields of `disp_event` that the source reads: the `__u32` members
`type` and `length` (the total length of the event, header included). -/
structure disp_event where
  type : Nat
  length : Nat
deriving DecidableEq, Repr

/-- A `disp_event_resp`: the header and the bytes of the flexible array `data`. -/
structure disp_event_resp where
  base : disp_event
  data : List Nat
deriving DecidableEq, Repr

/-- What the display-event descriptor answers during one `parseDispEvent`:
the return value of the header `read` and the contents of `header` after it,
the return value of the payload `read` and the bytes of `response->data`
after it. -/
structure DispEventFd where
  headerSize : Int
  header : disp_event
  dataSize : Int
  data : List Nat
deriving DecidableEq, Repr

/-- Result of `parseDispEvent`: the returned pointer (`none` is `nullptr`) and
the byte counts of the `read` calls it made, in order. -/
structure ParseResult where
  response : Option disp_event_resp
  reads : List Nat
deriving DecidableEq, Repr

/-- The function `parseDispEvent(int fd)`.  `malloc` is taken to succeed (the
source does not test its result).
* `headerSize < sizeof(header)` compares an `ssize_t` with a `size_t`: the
  signed operand is converted to `size_t`.
* `int dataLength = response->base.length - sizeof(response->base)` is computed
  in `size_t` and then converted to `int`.
* `read(fd, &response->data, dataLength)` converts `dataLength` to `size_t`.
* `dataSize < dataLength` compares an `ssize_t` with an `int`: a signed comparison. -/
def parseDispEvent (K : Headers) (fd : DispEventFd) : ParseResult :=
  let headerSize : Int := fd.headerSize
  if toSizeT headerSize < K.sizeof_disp_event then
    { response := none, reads := [K.sizeof_disp_event] }
  else
    let header := fd.header
    let dataLength : Int := toInt32 (toSizeT ((header.length : Int) - (K.sizeof_disp_event : Int)))
    let dataSize : Int := fd.dataSize
    if dataSize < dataLength then
      { response := none, reads := [K.sizeof_disp_event, toSizeT dataLength] }
    else
      { response := some { base := header, data := fd.data },
        reads := [K.sizeof_disp_event, toSizeT dataLength] }

/-! ## The handler object -/

/-- The data members of `XiaomiGarnetUdfpsHander` (`mDevice` is the receiver
of every `extCmd` and is not represented).  `lastPressX` and `lastPressY` are
`uint32_t`: every assignment to them stores a value reduced modulo 2^32. -/
structure State where
  touch_fd_ : Int
  disp_fd_ : Int
  lastPressX : Nat
  lastPressY : Nat
  enrolling : Bool
deriving DecidableEq, Repr

/-- The object built by `create()`, that is `new XiaomiGarnetUdfpsHander()`:
value-initialisation zeroes the scalar members, a default `unique_fd` holds
-1, and `enrolling` has the initialiser `false`. -/
def create : State :=
  { touch_fd_ := -1, disp_fd_ := -1, lastPressX := 0, lastPressY := 0, enrolling := false }

/-- The synchronous part of `init`: both device nodes are opened and the
results stored, whatever their sign.  `touchOpen` and `dispOpen` are the return
values of the two `open` calls. -/
def init (s : State) (touchOpen dispOpen : Int) : State :=
  { s with touch_fd_ := touchOpen, disp_fd_ := dispOpen }

/-- The method `setFodStatus(int value)`. -/
def setFodStatus (K : Headers) (s : State) (value : Int) : List Command :=
  [.ioctlBuf s.touch_fd_ .TOUCH_IOC_SET_CUR_VALUE
      (touchBuf K K.MI_DISP_PRIMARY K.Touch_Fod_Enable value)]

/-- The method `setFingerDown(bool pressed)`.  The argument
`pressed ? lastPressX : 0` is a `uint32_t`; it is converted to the `int32_t`
parameter of `extCmd` at the call. -/
def setFingerDown (K : Headers) (s : State) (pressed : Bool) : List Command :=
  [.extCmd COMMAND_FOD_PRESS_X (toInt32 (if pressed then s.lastPressX else 0)),
   .extCmd COMMAND_FOD_PRESS_Y (toInt32 (if pressed then s.lastPressY else 0)),
   .ioctlBuf s.touch_fd_ .TOUCH_IOC_SET_CUR_VALUE
      (touchBuf K K.MI_DISP_PRIMARY K.Touch_Fod_Enable (if pressed then 1 else 0))]

/-- The method `onFingerDown(x, y, minor, major)`; the two `float` parameters
are unnamed and unused in the source and are left out.  `x` and `y` are
`uint32_t` parameters: the values stored are reduced modulo 2^32. -/
def onFingerDown (K : Headers) (s : State) (x y : Nat) : State × List Command :=
  let s1 := { s with lastPressX := toUInt32 x, lastPressY := toUInt32 y }
  (s1, setFingerDown K s1 true)

/-- The method `onFingerUp()`. -/
def onFingerUp (K : Headers) (s : State) : State × List Command :=
  (s, setFingerDown K s false)

/-- The method `onAcquired(result, vendorCode)`. -/
def onAcquired (K : Headers) (s : State) (result vendorCode : Int) : State × List Command :=
  let good : List Command :=
    if result = K.FINGERPRINT_ACQUIRED_GOOD then
      [Command.ioctlLocalHbm s.disp_fd_ .MI_DISP_IOCTL_SET_LOCAL_HBM
          { flag := 0, disp_id := K.MI_DISP_PRIMARY,
            local_hbm_value := K.LHBM_TARGET_BRIGHTNESS_OFF_FINGER_UP }]
        ++ (if !s.enrolling then setFodStatus K s FOD_STATUS_OFF else [])
    else []
  let waiting : List Command :=
    if vendorCode = 21 then setFodStatus K s FOD_STATUS_ON else []
  (s, good ++ waiting)

/-- The method `cancel()`. -/
def cancel (K : Headers) (s : State) : State × List Command :=
  let s1 := { s with enrolling := false }
  (s1, setFodStatus K s1 FOD_STATUS_OFF)

/-- The method `preEnroll()`. -/
def preEnroll (s : State) : State × List Command :=
  ({ s with enrolling := true }, [])

/-- The method `enroll()`. -/
def enroll (s : State) : State × List Command :=
  ({ s with enrolling := true }, [])

/-- The method `postEnroll()`. -/
def postEnroll (K : Headers) (s : State) : State × List Command :=
  let s1 := { s with enrolling := false }
  (s1, setFodStatus K s1 FOD_STATUS_OFF)

/-- One call of the callback surface, with its arguments. -/
inductive Callback where
  | onFingerDown (x y : Nat)
  | onFingerUp
  | onAcquired (result vendorCode : Int)
  | cancel
  | preEnroll
  | enroll
  | postEnroll
deriving DecidableEq, Repr

/-- Dispatch of one callback. -/
def step (K : Headers) (s : State) : Callback → State × List Command
  | .onFingerDown x y => onFingerDown K s x y
  | .onFingerUp => onFingerUp K s
  | .onAcquired result vendorCode => onAcquired K s result vendorCode
  | .cancel => cancel K s
  | .preEnroll => preEnroll s
  | .enroll => enroll s
  | .postEnroll => postEnroll K s

/-- The handler state after a sequence of callbacks. -/
def runState (K : Headers) (s : State) : List Callback → State
  | [] => s
  | c :: cs => runState K (step K s c).1 cs

/-- All commands issued by a sequence of callbacks, in order. -/
def runCommands (K : Headers) (s : State) : List Callback → List Command
  | [] => []
  | c :: cs => (step K s c).2 ++ runCommands K (step K s c).1 cs

/-! ## The two listener loops of `init` -/

/-- One pass through the body of the press-status loop: `rc` is the return
value of `poll`, `fd` what the sysfs file answers to `readBool`. -/
def pressStatusIteration (K : Headers) (s : State) (rc : Int) (fd : SysfsFd) : List Command :=
  if rc < 0 then
    []
  else
    let pressed := readBool fd
    [.extCmd COMMAND_FOD_PRESS_STATUS (if pressed then PARAM_FOD_PRESSED else PARAM_FOD_RELEASED),
     .ioctlLocalHbm s.disp_fd_ .MI_DISP_IOCTL_SET_LOCAL_HBM
        { flag := 0, disp_id := K.MI_DISP_PRIMARY,
          local_hbm_value := if pressed then K.LHBM_TARGET_BRIGHTNESS_WHITE_1000NIT
                             else K.LHBM_TARGET_BRIGHTNESS_OFF_FINGER_UP }]

/-- The press-status thread over a finite run of wakes: `openRc` is the result
of opening the sysfs file; a negative result ends the thread at once. -/
def pressStatusThread (K : Headers) (s : State) (openRc : Int)
    (wakes : List (Int × SysfsFd)) : List Command :=
  if openRc < 0 then
    []
  else
    wakes.flatMap (fun w => pressStatusIteration K s w.1 w.2)

/-- The value of `response->data[0]`, a `__u8`.  The source reads it without
looking at the payload length: it is the first payload byte when the event
has one, and otherwise the byte `beyond` that lies in memory right after the
header of the returned event. -/
def dataAt0 (response : disp_event_resp) (beyond : Nat) : Nat :=
  match response.data with
  | [] => beyond % 256
  | value :: _ => value % 256

/-- One pass through the body of the display-event loop: `rc` is the return
value of `poll`, `fd` what the descriptor answers to `parseDispEvent`, and
`beyond` the byte in memory right after the header of the returned event
(read as `response->data[0]` when the event has no payload byte). -/
def dispEventIteration (K : Headers) (rc : Int) (fd : DispEventFd) (beyond : Nat) :
    List Command :=
  if rc < 0 then
    []
  else
    match (parseDispEvent K fd).response with
    | none => []
    | some response =>
      if response.base.type ≠ K.MI_DISP_EVENT_FOD then
        []
      else
        let value : Nat := dataAt0 response beyond
        let localHbmUiReady : Bool := (value &&& K.LOCAL_HBM_UI_READY) != 0
        [.extCmd COMMAND_NIT (if localHbmUiReady then PARAM_NIT_FOD else PARAM_NIT_NONE)]

/-- The display-event thread over a finite run of wakes: `openRc` is the
result of the thread opening the display-feature device for itself; a negative
result ends the thread at once, otherwise the thread registers for FOD events
on that descriptor and then loops. -/
def dispEventThread (K : Headers) (openRc : Int)
    (wakes : List (Int × DispEventFd × Nat)) : List Command :=
  if openRc < 0 then
    []
  else
    Command.ioctlEventReq openRc .MI_DISP_IOCTL_REGISTER_EVENT
        { flag := 0, disp_id := K.MI_DISP_PRIMARY, type := K.MI_DISP_EVENT_FOD }
      :: wakes.flatMap (fun w => dispEventIteration K w.1 w.2.1 w.2.2)

/-! ## Basic facts about the callback surface -/

theorem step_touch_fd (K : Headers) (s : State) (c : Callback) :
    (step K s c).1.touch_fd_ = s.touch_fd_ := by
  cases c <;> rfl

theorem step_disp_fd (K : Headers) (s : State) (c : Callback) :
    (step K s c).1.disp_fd_ = s.disp_fd_ := by
  cases c <;> rfl

theorem runState_touch_fd (K : Headers) (s : State) (calls : List Callback) :
    (runState K s calls).touch_fd_ = s.touch_fd_ := by
  induction calls generalizing s with
  | nil => rfl
  | cons c cs ih => simp [runState, ih, step_touch_fd]

theorem runState_disp_fd (K : Headers) (s : State) (calls : List Callback) :
    (runState K s calls).disp_fd_ = s.disp_fd_ := by
  induction calls generalizing s with
  | nil => rfl
  | cons c cs ih => simp [runState, ih, step_disp_fd]

theorem runState_append (K : Headers) (s : State) (xs ys : List Callback) :
    runState K s (xs ++ ys) = runState K (runState K s xs) ys := by
  induction xs generalizing s with
  | nil => rfl
  | cons c cs ih => simp [runState, ih]

theorem runCommands_append (K : Headers) (s : State) (xs ys : List Callback) :
    runCommands K s (xs ++ ys) = runCommands K s xs ++ runCommands K (runState K s xs) ys := by
  induction xs generalizing s with
  | nil => rfl
  | cons c cs ih => simp [runCommands, runState, ih]

theorem runCommands_snoc (K : Headers) (s : State) (xs : List Callback) (c : Callback) :
    runCommands K s (xs ++ [c]) = runCommands K s xs ++ (step K (runState K s xs) c).2 := by
  simp [runCommands_append, runCommands]

/-- For every state, a good acquisition issues the icon-off touch command when
not enrolling, and no icon-off command when enrolling. -/
theorem onAcquired_good_icon (K : Headers) (s : State) (vendorCode : Int) :
    (s.enrolling = false →
      Command.ioctlBuf s.touch_fd_ .TOUCH_IOC_SET_CUR_VALUE
          ([K.MI_DISP_PRIMARY, K.Touch_Fod_Enable, FOD_STATUS_OFF]
            ++ List.replicate (K.MAX_BUF_SIZE - 3) 0)
        ∈ (onAcquired K s K.FINGERPRINT_ACQUIRED_GOOD vendorCode).2) ∧
    (s.enrolling = true →
      ∀ c ∈ (onAcquired K s K.FINGERPRINT_ACQUIRED_GOOD vendorCode).2,
        c.isFodIconOff K = false) := by
  constructor
  · intro h
    simp [onAcquired, setFodStatus, touchBuf, h]
  · intro h c hc
    by_cases hv : vendorCode = 21
    · simp [onAcquired, setFodStatus, h, hv] at hc
      rcases hc with rfl | rfl
      · rfl
      · simp [Command.isFodIconOff, touchBuf, FOD_STATUS_ON, FOD_STATUS_OFF]
    · simp [onAcquired, setFodStatus, h, hv] at hc
      subst hc
      rfl

/-! ## Claims about the callback surface -/

/-- C1 (as amended): after any sequence of earlier callbacks, the commands
added by a final `onFingerDown(x, y, _, _)`, for `uint32_t` arguments `x` and
`y`, are `extCmd(FOD_PRESS_X, x')`, `extCmd(FOD_PRESS_Y, y')` and the touch
ioctl `SET_CUR_VALUE` whose buffer starts `MI_DISP_PRIMARY, Touch_Fod_Enable, 1`
(zero-filled up to `MAX_BUF_SIZE`), where `x'` and `y'` are the arguments as
the `int32_t` parameter of `extCmd` receives them: the argument itself when it
is below 2^31, the argument minus 2^32 otherwise.  The commands added by a
final `onFingerUp()` are the same three with 0, 0 and value 0.  Neither
depends on the earlier calls. -/
theorem finger_commands_mirror_last_call (K : Headers) (s0 : State)
    (earlier : List Callback) (x y : Nat)
    (hx : x < 4294967296) (hy : y < 4294967296) :
    runCommands K s0 (earlier ++ [Callback.onFingerDown x y]) =
      runCommands K s0 earlier ++
        [Command.extCmd COMMAND_FOD_PRESS_X
           (if x < 2147483648 then (x : Int) else (x : Int) - 4294967296),
         Command.extCmd COMMAND_FOD_PRESS_Y
           (if y < 2147483648 then (y : Int) else (y : Int) - 4294967296),
         Command.ioctlBuf s0.touch_fd_ .TOUCH_IOC_SET_CUR_VALUE
           ([K.MI_DISP_PRIMARY, K.Touch_Fod_Enable, 1]
             ++ List.replicate (K.MAX_BUF_SIZE - 3) 0)] ∧
    (x < 2147483648 → y < 2147483648 →
      runCommands K s0 (earlier ++ [Callback.onFingerDown x y]) =
        runCommands K s0 earlier ++
          [Command.extCmd COMMAND_FOD_PRESS_X x,
           Command.extCmd COMMAND_FOD_PRESS_Y y,
           Command.ioctlBuf s0.touch_fd_ .TOUCH_IOC_SET_CUR_VALUE
             ([K.MI_DISP_PRIMARY, K.Touch_Fod_Enable, 1]
               ++ List.replicate (K.MAX_BUF_SIZE - 3) 0)]) ∧
    runCommands K s0 (earlier ++ [Callback.onFingerUp]) =
      runCommands K s0 earlier ++
        [Command.extCmd COMMAND_FOD_PRESS_X 0,
         Command.extCmd COMMAND_FOD_PRESS_Y 0,
         Command.ioctlBuf s0.touch_fd_ .TOUCH_IOC_SET_CUR_VALUE
           ([K.MI_DISP_PRIMARY, K.Touch_Fod_Enable, 0]
             ++ List.replicate (K.MAX_BUF_SIZE - 3) 0)] := by
  have hdown : runCommands K s0 (earlier ++ [Callback.onFingerDown x y]) =
      runCommands K s0 earlier ++
        [Command.extCmd COMMAND_FOD_PRESS_X
           (if x < 2147483648 then (x : Int) else (x : Int) - 4294967296),
         Command.extCmd COMMAND_FOD_PRESS_Y
           (if y < 2147483648 then (y : Int) else (y : Int) - 4294967296),
         Command.ioctlBuf s0.touch_fd_ .TOUCH_IOC_SET_CUR_VALUE
           ([K.MI_DISP_PRIMARY, K.Touch_Fod_Enable, 1]
             ++ List.replicate (K.MAX_BUF_SIZE - 3) 0)] := by
    rw [runCommands_snoc]
    simp [step, onFingerDown, setFingerDown, touchBuf, runState_touch_fd, toInt32, toUInt32,
      Nat.mod_eq_of_lt hx, Nat.mod_eq_of_lt hy]
  refine ⟨hdown, ?_, ?_⟩
  · intro hx31 hy31
    rw [hdown]
    simp [hx31, hy31]
  · rw [runCommands_snoc]
    simp [step, onFingerUp, setFingerDown, touchBuf, runState_touch_fd, toInt32]

/-- Evaluation of C1 (as amended) at a press at (540, 2200) on a fresh handler
whose touch device opened as descriptor 7. -/
theorem finger_commands_mirror_last_call_witness :
    (540 : Nat) < 4294967296 ∧ (2200 : Nat) < 4294967296 ∧
    runCommands sampleHeaders (init create 7 8) [Callback.onFingerDown 540 2200] =
      [Command.extCmd COMMAND_FOD_PRESS_X 540,
       Command.extCmd COMMAND_FOD_PRESS_Y 2200,
       Command.ioctlBuf 7 .TOUCH_IOC_SET_CUR_VALUE [0, 10, 1]] :=
  ⟨by decide, by decide,
   (finger_commands_mirror_last_call sampleHeaders (init create 7 8) [] 540 2200
      (by decide) (by decide)).2.1 (by decide) (by decide)⟩

/-- C1 (counterexample): `onFingerDown(3000000000, 4294967295, _, _)` on a
fresh handler whose touch device opened as descriptor 7.  Both arguments are
`uint32_t` values, and the sensor module receives `extCmd(FOD_PRESS_X,
-1294967296)` and `extCmd(FOD_PRESS_Y, -1)`, not the arguments themselves. -/
theorem finger_coordinates_narrowed :
    runCommands sampleHeaders (init create 7 8)
        [Callback.onFingerDown 3000000000 4294967295] =
      [Command.extCmd COMMAND_FOD_PRESS_X (-1294967296),
       Command.extCmd COMMAND_FOD_PRESS_Y (-1),
       Command.ioctlBuf 7 .TOUCH_IOC_SET_CUR_VALUE [0, 10, 1]] ∧
    Command.extCmd COMMAND_FOD_PRESS_X (-1294967296)
      ≠ Command.extCmd COMMAND_FOD_PRESS_X 3000000000 ∧
    Command.extCmd COMMAND_FOD_PRESS_Y (-1)
      ≠ Command.extCmd COMMAND_FOD_PRESS_Y 4294967295 := by
  decide

/-- C2: in every state reached from the initial state (`create` followed by
`init`) by any sequence of callbacks, and for every vendor code,
`onAcquired(FINGERPRINT_ACQUIRED_GOOD, vendorCode)` issues the touch command
`SET_CUR_VALUE` with `MI_DISP_PRIMARY, Touch_Fod_Enable, FOD_STATUS_OFF` when
`enrolling` is false, and issues no such command when `enrolling` is true. -/
theorem onAcquired_good_icon_off_unless_enrolling (K : Headers)
    (touchOpen dispOpen : Int) (calls : List Callback) (vendorCode : Int) :
    ((runState K (init create touchOpen dispOpen) calls).enrolling = false →
      Command.ioctlBuf touchOpen .TOUCH_IOC_SET_CUR_VALUE
          ([K.MI_DISP_PRIMARY, K.Touch_Fod_Enable, FOD_STATUS_OFF]
            ++ List.replicate (K.MAX_BUF_SIZE - 3) 0)
        ∈ (onAcquired K (runState K (init create touchOpen dispOpen) calls)
            K.FINGERPRINT_ACQUIRED_GOOD vendorCode).2) ∧
    ((runState K (init create touchOpen dispOpen) calls).enrolling = true →
      ∀ c ∈ (onAcquired K (runState K (init create touchOpen dispOpen) calls)
            K.FINGERPRINT_ACQUIRED_GOOD vendorCode).2,
        c.isFodIconOff K = false) := by
  have h := onAcquired_good_icon K (runState K (init create touchOpen dispOpen) calls) vendorCode
  rw [runState_touch_fd] at h
  exact h

/-- C3: for every result and every state, the last command issued by
`onAcquired(result, 21)`, which is also its last touch command, is
`SET_CUR_VALUE` with `MI_DISP_PRIMARY, Touch_Fod_Enable, FOD_STATUS_ON`; when
the result is good and the handler is not enrolling the call issues the local
HBM request, the icon-off command and then the icon-on command. -/
theorem onAcquired_waiting_turns_icon_on (K : Headers) (s : State) (result : Int) :
    (onAcquired K s result 21).2.getLast? =
      some (Command.ioctlBuf s.touch_fd_ .TOUCH_IOC_SET_CUR_VALUE
        ([K.MI_DISP_PRIMARY, K.Touch_Fod_Enable, FOD_STATUS_ON]
          ++ List.replicate (K.MAX_BUF_SIZE - 3) 0)) ∧
    ((onAcquired K s result 21).2.filter Command.isTouchIoctl).getLast? =
      some (Command.ioctlBuf s.touch_fd_ .TOUCH_IOC_SET_CUR_VALUE
        ([K.MI_DISP_PRIMARY, K.Touch_Fod_Enable, FOD_STATUS_ON]
          ++ List.replicate (K.MAX_BUF_SIZE - 3) 0)) ∧
    (result = K.FINGERPRINT_ACQUIRED_GOOD → s.enrolling = false →
      (onAcquired K s result 21).2 =
        [Command.ioctlLocalHbm s.disp_fd_ .MI_DISP_IOCTL_SET_LOCAL_HBM
           { flag := 0, disp_id := K.MI_DISP_PRIMARY,
             local_hbm_value := K.LHBM_TARGET_BRIGHTNESS_OFF_FINGER_UP },
         Command.ioctlBuf s.touch_fd_ .TOUCH_IOC_SET_CUR_VALUE
           ([K.MI_DISP_PRIMARY, K.Touch_Fod_Enable, FOD_STATUS_OFF]
             ++ List.replicate (K.MAX_BUF_SIZE - 3) 0),
         Command.ioctlBuf s.touch_fd_ .TOUCH_IOC_SET_CUR_VALUE
           ([K.MI_DISP_PRIMARY, K.Touch_Fod_Enable, FOD_STATUS_ON]
             ++ List.replicate (K.MAX_BUF_SIZE - 3) 0)]) := by
  refine ⟨?_, ?_, ?_⟩
  · simp [onAcquired, setFodStatus, touchBuf]
  · by_cases hg : result = K.FINGERPRINT_ACQUIRED_GOOD <;> cases he : s.enrolling <;>
      simp [onAcquired, setFodStatus, touchBuf, hg, he, Command.isTouchIoctl, List.filter]
  · intro hg he
    simp [onAcquired, setFodStatus, touchBuf, hg, he]

/-- C4: in every state `cancel()` and `postEnroll()` each leave `enrolling`
false and issue exactly one command, the touch command `SET_CUR_VALUE` with
`MI_DISP_PRIMARY, Touch_Fod_Enable, FOD_STATUS_OFF`; calling either again on
the resulting state gives the same state and the same command. -/
theorem cancel_postEnroll_idempotent (K : Headers) (s : State) :
    ((cancel K s).1.enrolling = false ∧
      (cancel K s).2 =
        [Command.ioctlBuf s.touch_fd_ .TOUCH_IOC_SET_CUR_VALUE
          ([K.MI_DISP_PRIMARY, K.Touch_Fod_Enable, FOD_STATUS_OFF]
            ++ List.replicate (K.MAX_BUF_SIZE - 3) 0)] ∧
      cancel K (cancel K s).1 = cancel K s) ∧
    ((postEnroll K s).1.enrolling = false ∧
      (postEnroll K s).2 =
        [Command.ioctlBuf s.touch_fd_ .TOUCH_IOC_SET_CUR_VALUE
          ([K.MI_DISP_PRIMARY, K.Touch_Fod_Enable, FOD_STATUS_OFF]
            ++ List.replicate (K.MAX_BUF_SIZE - 3) 0)] ∧
      postEnroll K (postEnroll K s).1 = postEnroll K s) := by
  refine ⟨⟨rfl, ?_, rfl⟩, ⟨rfl, ?_, rfl⟩⟩
  · simp [cancel, setFodStatus, touchBuf]
  · simp [postEnroll, setFodStatus, touchBuf]

/-! ## Claims about `readBool` and the press-status listener -/

/-- C7: `readBool` returns true exactly when the seek returns 0, the one-byte
read returns 1 and the byte read is not the character '0'.  In particular a
read of '1' gives true, a read of '0' gives false, and a read returning zero
bytes, a read returning anything other than 1, or a non-zero seek result give
false. -/
theorem readBool_spec (fd : SysfsFd) :
    (readBool fd = true ↔ fd.lseekRc = 0 ∧ fd.readRc = 1 ∧ fd.c ≠ '0') ∧
    readBool { lseekRc := 0, readRc := 1, c := '1' } = true ∧
    readBool { lseekRc := 0, readRc := 1, c := '0' } = false ∧
    readBool { lseekRc := fd.lseekRc, readRc := 0, c := fd.c } = false ∧
    (fd.readRc ≠ 1 → readBool fd = false) ∧
    (fd.lseekRc ≠ 0 → readBool fd = false) := by
  refine ⟨?_, by decide, by decide, ?_, ?_, ?_⟩
  · unfold readBool
    by_cases h1 : fd.lseekRc = 0 <;> by_cases h2 : fd.readRc = 1 <;> simp [h1, h2]
  · unfold readBool
    by_cases h1 : fd.lseekRc = 0 <;> simp [h1]
  · intro h2
    unfold readBool
    by_cases h1 : fd.lseekRc = 0 <;> simp [h1, h2]
  · intro h1
    simp [readBool, h1]

/-- C8: a wake of the press-status listener whose poll result is non-negative
issues exactly two commands, in this order: `extCmd(FOD_PRESS_STATUS, PRESSED)`
then `SET_LOCAL_HBM` with `disp_id = MI_DISP_PRIMARY` and the value
`LHBM_TARGET_BRIGHTNESS_WHITE_1000NIT` when `readBool` gives true;
`extCmd(FOD_PRESS_STATUS, RELEASED)` then `SET_LOCAL_HBM` with the value
`LHBM_TARGET_BRIGHTNESS_OFF_FINGER_UP` when `readBool` gives false, which
includes a failed seek or read.  A wake whose poll result is negative issues
no command. -/
theorem pressStatusIteration_spec (K : Headers) (s : State) (rc : Int) (fd : SysfsFd) :
    (0 ≤ rc → readBool fd = true →
      pressStatusIteration K s rc fd =
        [Command.extCmd COMMAND_FOD_PRESS_STATUS PARAM_FOD_PRESSED,
         Command.ioctlLocalHbm s.disp_fd_ .MI_DISP_IOCTL_SET_LOCAL_HBM
           { flag := 0, disp_id := K.MI_DISP_PRIMARY,
             local_hbm_value := K.LHBM_TARGET_BRIGHTNESS_WHITE_1000NIT }]) ∧
    (0 ≤ rc → readBool fd = false →
      pressStatusIteration K s rc fd =
        [Command.extCmd COMMAND_FOD_PRESS_STATUS PARAM_FOD_RELEASED,
         Command.ioctlLocalHbm s.disp_fd_ .MI_DISP_IOCTL_SET_LOCAL_HBM
           { flag := 0, disp_id := K.MI_DISP_PRIMARY,
             local_hbm_value := K.LHBM_TARGET_BRIGHTNESS_OFF_FINGER_UP }]) ∧
    (0 ≤ rc → (fd.lseekRc ≠ 0 ∨ fd.readRc ≠ 1) →
      pressStatusIteration K s rc fd =
        [Command.extCmd COMMAND_FOD_PRESS_STATUS PARAM_FOD_RELEASED,
         Command.ioctlLocalHbm s.disp_fd_ .MI_DISP_IOCTL_SET_LOCAL_HBM
           { flag := 0, disp_id := K.MI_DISP_PRIMARY,
             local_hbm_value := K.LHBM_TARGET_BRIGHTNESS_OFF_FINGER_UP }]) ∧
    (rc < 0 → pressStatusIteration K s rc fd = []) := by
  refine ⟨?_, ?_, ?_, ?_⟩
  · intro hrc hp
    simp [pressStatusIteration, not_lt.mpr hrc, hp]
  · intro hrc hp
    simp [pressStatusIteration, not_lt.mpr hrc, hp]
  · intro hrc hfail
    have hp : readBool fd = false := by
      unfold readBool
      rcases hfail with h | h
      · simp [h]
      · by_cases h1 : fd.lseekRc = 0 <;> simp [h1, h]
    simp [pressStatusIteration, not_lt.mpr hrc, hp]
  · intro hrc
    simp [pressStatusIteration, hrc]

/-! ## Claims about the display-event listener -/

/-- C9: with the flag mask `LOCAL_HBM_UI_READY` being bit 0 (as the
specification describes it), one pass of the display-event loop behaves as
follows.  A negative poll result issues no command.  A failed decode
(`parseDispEvent` returning `nullptr`) issues no command; this is the case for
a header read that returns a non-negative count below the header size, and
for a payload read that returns less than the declared payload length when the
header was read in full and declares a length of at least the header size
whose payload length fits an `int`.  A decoded event whose type is not `MI_DISP_EVENT_FOD` issues no command.  A
decoded event of type `MI_DISP_EVENT_FOD` issues exactly one command, decided
by bit 0 of `response->data[0]`, whether or not the event has a payload byte:
`extCmd(NIT, FOD)` when the bit is set and `extCmd(NIT, NONE)` when it is
clear; for an event with first payload byte `b` that is bit 0 of `b`, for
every value of `b`. -/
theorem dispEventIteration_spec (K : Headers) (hmask : K.LOCAL_HBM_UI_READY = 1)
    (rc : Int) (fd : DispEventFd) (beyond : Nat) :
    (rc < 0 → dispEventIteration K rc fd beyond = []) ∧
    (0 ≤ rc → (parseDispEvent K fd).response = none →
      dispEventIteration K rc fd beyond = []) ∧
    (0 ≤ rc → 0 ≤ fd.headerSize → fd.headerSize < (K.sizeof_disp_event : Int) →
      dispEventIteration K rc fd beyond = []) ∧
    (0 ≤ rc → fd.headerSize = (K.sizeof_disp_event : Int) →
      fd.header.length < 4294967296 →
      K.sizeof_disp_event ≤ fd.header.length →
      fd.header.length - K.sizeof_disp_event < 2147483648 →
      fd.dataSize < ((fd.header.length - K.sizeof_disp_event : Nat) : Int) →
      dispEventIteration K rc fd beyond = []) ∧
    (∀ response : disp_event_resp, 0 ≤ rc →
      (parseDispEvent K fd).response = some response →
        (response.base.type ≠ K.MI_DISP_EVENT_FOD →
          dispEventIteration K rc fd beyond = []) ∧
        (response.base.type = K.MI_DISP_EVENT_FOD →
          dispEventIteration K rc fd beyond =
            [Command.extCmd COMMAND_NIT
              (if (dataAt0 response beyond).testBit 0 = true then PARAM_NIT_FOD
               else PARAM_NIT_NONE)]) ∧
        (response.base.type = K.MI_DISP_EVENT_FOD →
          ∀ (b : Nat) (rest : List Nat), response.data = b :: rest →
            dispEventIteration K rc fd beyond =
              [Command.extCmd COMMAND_NIT
                (if b.testBit 0 = true then PARAM_NIT_FOD else PARAM_NIT_NONE)]) ∧
        (response.base.type = K.MI_DISP_EVENT_FOD → response.data = [] →
          dispEventIteration K rc fd beyond =
            [Command.extCmd COMMAND_NIT
              (if beyond.testBit 0 = true then PARAM_NIT_FOD else PARAM_NIT_NONE)])) := by
  have hbit : ∀ b : Nat, (b &&& 1 != 0) = b.testBit 0 := by
    intro b
    rw [Nat.testBit_zero, Nat.and_one_is_mod]
    rcases Nat.mod_two_eq_zero_or_one b with h | h <;> simp [h]
  have hbyte : ∀ b : Nat, (b % 256).testBit 0 = b.testBit 0 := by
    intro b
    simp only [Nat.testBit_zero]
    exact decide_eq_decide.mpr (by omega)
  refine ⟨?_, ?_, ?_, ?_, ?_⟩
  · intro hrc
    simp [dispEventIteration, hrc]
  · intro hrc hnone
    simp [dispEventIteration, not_lt.mpr hrc, hnone]
  · intro hrc h0 hlt
    have hshort : toSizeT fd.headerSize < K.sizeof_disp_event := by
      unfold toSizeT
      omega
    simp [dispEventIteration, not_lt.mpr hrc, parseDispEvent, hshort]
  · intro hrc hfull hu32 hlen hfit hpayload
    have hhead : ¬ toSizeT fd.headerSize < K.sizeof_disp_event := by
      unfold toSizeT
      omega
    have hd : toInt32 (toSizeT ((fd.header.length : Int) - (K.sizeof_disp_event : Int)))
        = ((fd.header.length - K.sizeof_disp_event : Nat) : Int) := by
      unfold toInt32 toSizeT
      split <;> omega
    simp [dispEventIteration, not_lt.mpr hrc, parseDispEvent, hhead, hd, hpayload]
  · intro response hrc hsome
    have hfod : response.base.type = K.MI_DISP_EVENT_FOD →
        dispEventIteration K rc fd beyond =
          [Command.extCmd COMMAND_NIT
            (if (dataAt0 response beyond).testBit 0 = true then PARAM_NIT_FOD
             else PARAM_NIT_NONE)] := by
      intro hty
      simp [dispEventIteration, not_lt.mpr hrc, hsome, hty, hmask, hbit]
    refine ⟨?_, hfod, ?_, ?_⟩
    · intro hty
      simp [dispEventIteration, not_lt.mpr hrc, hsome, hty]
    · intro hty b rest hdata
      rw [hfod hty]
      simp [dataAt0, hdata, hbyte]
    · intro hty hdata
      rw [hfod hty]
      simp [dataAt0, hdata, hbyte]

/-- Evaluation of C9 on concrete events with a 12-byte header: one payload
byte 0x01 gives `(NIT, FOD)`, one payload byte 0x00 gives `(NIT, NONE)`, and
an event without payload byte gives the command decided by the byte that
follows the header in memory (here 0x01, so `(NIT, FOD)`). -/
theorem dispEventIteration_spec_witness :
    sampleHeaders.LOCAL_HBM_UI_READY = 1 ∧
    dispEventIteration sampleHeaders 1
        { headerSize := 12, header := { type := 2, length := 13 }, dataSize := 1, data := [1] }
        0
      = [Command.extCmd COMMAND_NIT PARAM_NIT_FOD] ∧
    dispEventIteration sampleHeaders 1
        { headerSize := 12, header := { type := 2, length := 13 }, dataSize := 1, data := [0] }
        1
      = [Command.extCmd COMMAND_NIT PARAM_NIT_NONE] ∧
    dispEventIteration sampleHeaders 1
        { headerSize := 12, header := { type := 2, length := 12 }, dataSize := 0, data := [] }
        1
      = [Command.extCmd COMMAND_NIT PARAM_NIT_FOD] :=
  ⟨rfl,
   ((dispEventIteration_spec sampleHeaders rfl 1
      { headerSize := 12, header := { type := 2, length := 13 }, dataSize := 1, data := [1] }
      0).2.2.2.2
      { base := { type := 2, length := 13 }, data := [1] } (by decide) (by decide)).2.2.1
      rfl 1 [] rfl,
   ((dispEventIteration_spec sampleHeaders rfl 1
      { headerSize := 12, header := { type := 2, length := 13 }, dataSize := 1, data := [0] }
      1).2.2.2.2
      { base := { type := 2, length := 13 }, data := [0] } (by decide) (by decide)).2.2.1
      rfl 0 [] rfl,
   ((dispEventIteration_spec sampleHeaders rfl 1
      { headerSize := 12, header := { type := 2, length := 12 }, dataSize := 0, data := [] }
      1).2.2.2.2
      { base := { type := 2, length := 12 }, data := [] } (by decide) (by decide)).2.2.2
      rfl rfl⟩

/-! ## Claims about `parseDispEvent` -/

/-- A header read that returns a non-negative count below the header size
makes `parseDispEvent` fail after that single read. -/
theorem parseDispEvent_short_header (K : Headers) (fd : DispEventFd)
    (h0 : 0 ≤ fd.headerSize) (hlt : fd.headerSize < (K.sizeof_disp_event : Int)) :
    parseDispEvent K fd = { response := none, reads := [K.sizeof_disp_event] } := by
  have h : toSizeT fd.headerSize < K.sizeof_disp_event := by
    unfold toSizeT
    omega
  simp [parseDispEvent, h]

/-- Evaluation of the short-header case: 11 of 12 header bytes read. -/
theorem parseDispEvent_short_header_witness :
    parseDispEvent sampleHeaders
        { headerSize := 11, header := { type := 2, length := 13 }, dataSize := 1, data := [1] }
      = { response := none, reads := [12] } :=
  parseDispEvent_short_header sampleHeaders
    { headerSize := 11, header := { type := 2, length := 13 }, dataSize := 1, data := [1] }
    (by decide) (by decide)

/-- A header read that returns a negative `ssize_t` passes the header test
(for any header size an object can have) and the payload read is made. -/
theorem parseDispEvent_negative_header (K : Headers) (fd : DispEventFd)
    (hneg : fd.headerSize < 0) (hmin : -9223372036854775808 ≤ fd.headerSize)
    (hsz : K.sizeof_disp_event ≤ 9223372036854775808) :
    (parseDispEvent K fd).reads.length = 2 := by
  have h : ¬ toSizeT fd.headerSize < K.sizeof_disp_event := by
    unfold toSizeT
    omega
  simp only [parseDispEvent, h, if_false]
  split <;> rfl

/-- C5 (evaluation at the failing input): with a 12-byte header, a header read
that returns -1 is smaller than the header size as a signed value, yet
`parseDispEvent` goes on to read the payload (here 1 byte, computed from
whatever `header` holds) and returns an event. -/
theorem parseDispEvent_header_read_error :
    (-1 : Int) < (sampleHeaders.sizeof_disp_event : Int) ∧
    parseDispEvent sampleHeaders
        { headerSize := -1, header := { type := 2, length := 13 }, dataSize := 1, data := [1] }
      = { response := some { base := { type := 2, length := 13 }, data := [1] },
          reads := [12, 1] } := by
  decide

/-- When the header is fully read, the declared length is at least the header
size and the payload length fits an `int`, `parseDispEvent` returns an event
exactly when the payload read returned at least the declared payload length. -/
theorem parseDispEvent_payload_check (K : Headers) (fd : DispEventFd)
    (hfull : ¬ toSizeT fd.headerSize < K.sizeof_disp_event)
    (hlen : K.sizeof_disp_event ≤ fd.header.length)
    (hfit : fd.header.length - K.sizeof_disp_event < 2147483648) :
    ((parseDispEvent K fd).response = some { base := fd.header, data := fd.data } ↔
        ((fd.header.length - K.sizeof_disp_event : Nat) : Int) ≤ fd.dataSize) ∧
    ((parseDispEvent K fd).response = none ↔
        fd.dataSize < ((fd.header.length - K.sizeof_disp_event : Nat) : Int)) := by
  have hd : toInt32 (toSizeT ((fd.header.length : Int) - (K.sizeof_disp_event : Int)))
      = ((fd.header.length - K.sizeof_disp_event : Nat) : Int) := by
    unfold toInt32 toSizeT
    split <;> omega
  simp only [parseDispEvent, hfull, if_false, hd]
  by_cases hc : fd.dataSize < ((fd.header.length - K.sizeof_disp_event : Nat) : Int)
  · simp [hc]
  · simp [hc, not_lt.mp hc]

/-- Evaluation of the payload test on a 12-byte header declaring 20 bytes:
a payload read of 8 bytes gives the event, a payload read of 4 bytes fails. -/
theorem parseDispEvent_payload_check_witness :
    (parseDispEvent sampleHeaders
        { headerSize := 12, header := { type := 2, length := 20 }, dataSize := 4,
          data := [1, 2, 3, 4] }).response = none :=
  (parseDispEvent_payload_check sampleHeaders
    { headerSize := 12, header := { type := 2, length := 20 }, dataSize := 4,
      data := [1, 2, 3, 4] }
    (by decide) (by decide) (by decide)).2.mpr (by decide)

/-- C6 (evaluation at the failing inputs): with a 12-byte header that was read
in full, (a) a declared length of 8, below the header size, gives
`dataLength = -4`, and the event is returned although the payload read
returned -1; (b) a declared length of 2^31 + 12 gives `dataLength = -2^31`,
and the event is returned although the payload read returned 0 bytes of the
2^31 declared. -/
theorem parseDispEvent_returns_bad_event :
    parseDispEvent sampleHeaders
        { headerSize := 12, header := { type := 2, length := 8 }, dataSize := -1, data := [] }
      = { response := some { base := { type := 2, length := 8 }, data := [] },
          reads := [12, 18446744073709551612] } ∧
    parseDispEvent sampleHeaders
        { headerSize := 12, header := { type := 2, length := 2147483660 }, dataSize := 0,
          data := [] }
      = { response := some { base := { type := 2, length := 2147483660 }, data := [] },
          reads := [12, 18446744071562067968] } := by
  decide

/-! ## Claims about the stored device handles -/

/-- C10 (as amended): the handler never tests its stored handles.  Whatever
the sign of `touch_fd_`, `setFodStatus` issues exactly one touch ioctl with
`touch_fd_` as descriptor and `setFingerDown` exactly one, after its two sensor
commands; whatever the sign of `disp_fd_`, `onAcquired` with a good result and
a press-status wake with a non-negative poll result each issue exactly one
`SET_LOCAL_HBM` ioctl with `disp_fd_` as descriptor.  After a failed open these
calls are made with the negative handle. -/
theorem ioctl_issued_on_stored_handle (K : Headers) (s : State) (value : Int)
    (pressed : Bool) (vendorCode rc : Int) (fd : SysfsFd) :
    setFodStatus K s value =
      [Command.ioctlBuf s.touch_fd_ .TOUCH_IOC_SET_CUR_VALUE
        ([K.MI_DISP_PRIMARY, K.Touch_Fod_Enable, value]
          ++ List.replicate (K.MAX_BUF_SIZE - 3) 0)] ∧
    setFingerDown K s pressed =
      [Command.extCmd COMMAND_FOD_PRESS_X (toInt32 (if pressed then s.lastPressX else 0)),
       Command.extCmd COMMAND_FOD_PRESS_Y (toInt32 (if pressed then s.lastPressY else 0)),
       Command.ioctlBuf s.touch_fd_ .TOUCH_IOC_SET_CUR_VALUE
        ([K.MI_DISP_PRIMARY, K.Touch_Fod_Enable, if pressed then 1 else 0]
          ++ List.replicate (K.MAX_BUF_SIZE - 3) 0)] ∧
    (onAcquired K s K.FINGERPRINT_ACQUIRED_GOOD vendorCode).2.filter Command.isLocalHbmIoctl =
      [Command.ioctlLocalHbm s.disp_fd_ .MI_DISP_IOCTL_SET_LOCAL_HBM
        { flag := 0, disp_id := K.MI_DISP_PRIMARY,
          local_hbm_value := K.LHBM_TARGET_BRIGHTNESS_OFF_FINGER_UP }] ∧
    (0 ≤ rc →
      (pressStatusIteration K s rc fd).filter Command.isLocalHbmIoctl =
        [Command.ioctlLocalHbm s.disp_fd_ .MI_DISP_IOCTL_SET_LOCAL_HBM
          { flag := 0, disp_id := K.MI_DISP_PRIMARY,
            local_hbm_value := if readBool fd then K.LHBM_TARGET_BRIGHTNESS_WHITE_1000NIT
                               else K.LHBM_TARGET_BRIGHTNESS_OFF_FINGER_UP }]) := by
  refine ⟨rfl, rfl, ?_, ?_⟩
  · by_cases hv : vendorCode = 21 <;> cases he : s.enrolling <;>
      simp [onAcquired, setFodStatus, hv, he, Command.isLocalHbmIoctl, List.filter]
  · intro hrc
    simp [pressStatusIteration, not_lt.mpr hrc, Command.isLocalHbmIoctl, List.filter]

/-- C10 (counterexample): both opens fail at `init` with -1, so both stored
handles are negative; `cancel()` still issues the touch ioctl, on descriptor
-1, and a press-status wake still issues the `SET_LOCAL_HBM` ioctl, on
descriptor -1. -/
theorem ioctl_on_negative_handle :
    (init create (-1) (-1)).touch_fd_ < 0 ∧
    (init create (-1) (-1)).disp_fd_ < 0 ∧
    (cancel sampleHeaders (init create (-1) (-1))).2 =
      [Command.ioctlBuf (-1) .TOUCH_IOC_SET_CUR_VALUE [0, 10, 0]] ∧
    pressStatusIteration sampleHeaders (init create (-1) (-1)) 1
        { lseekRc := 0, readRc := 1, c := '1' } =
      [Command.extCmd 1 1,
       Command.ioctlLocalHbm (-1) .MI_DISP_IOCTL_SET_LOCAL_HBM
         { flag := 0, disp_id := 0, local_hbm_value := 1 }] := by
  decide

end UdfpsHandler
